import Mathlib

/-!
Verification development for the aerodynamic downwash force-sampling engine
(AirflowSampler, src/aiml_virtual/airflow/airflow_sampler.py).

The sampler code under src is the authority and is embedded directly.
Collaborators that the repository uses but whose sources are not under src
(mujoco_helper, BoxDictionary, Drone, Payload) are modelled from the
specification; each such definition carries a doc comment saying so.

Conventions: all machine floats are embedded as rationals; numpy arrays of
3-vectors become lists of rational triples; numpy boolean-mask selection
becomes the maskFilter function; fallible Python code returns Except String.
-/

set_option maxHeartbeats 1000000

/-- 3-vectors (numpy arrays of shape (3,)) as rational triples. -/
abbrev Vec3 := ℚ × ℚ × ℚ

/-- Cross product of two 3-vectors. -/
def cross (a b : Vec3) : Vec3 :=
  (a.2.1 * b.2.2 - a.2.2 * b.2.1,
   a.2.2 * b.1 - a.1 * b.2.2,
   a.1 * b.2.1 - a.2.1 * b.1)

/-- Dot product of two 3-vectors. -/
def dotV (a b : Vec3) : ℚ :=
  a.1 * b.1 + a.2.1 * b.2.1 + a.2.2 * b.2.2

/-- Sum of a list of 3-vectors (np.sum along axis 0). -/
def vsum (l : List Vec3) : Vec3 :=
  l.foldl (fun a b => a + b) 0

/-- Quaternions in (w, x, y, z) order, the layout the mujoco sensors use. -/
structure Quat where
  w : ℚ
  x : ℚ
  y : ℚ
  z : ℚ
deriving DecidableEq, Repr

/-- Vector part of a quaternion. -/
def Quat.vec (q : Quat) : Vec3 := (q.x, q.y, q.z)

/-- Quaternion conjugate. -/
def Quat.conj (q : Quat) : Quat := ⟨q.w, -q.x, -q.y, -q.z⟩

/-- Modelled from the spec: mujoco_helper.qv_mult is not under src.  Active
rotation of a vector by a unit quaternion (world-direction semantics),
per the FrameTransform component of the spec. -/
def qv_mult (q : Quat) (v : Vec3) : Vec3 :=
  let t := (2 : ℚ) • cross q.vec v
  v + q.w • t + cross q.vec t

/-- Modelled from the spec: passive rotation (frame change) is the active
rotation by the inverse (conjugate) quaternion. -/
def qv_mult_passive (q : Quat) (v : Vec3) : Vec3 := qv_mult q.conj v

/-- Modelled from the spec: mujoco_helper.quat_vect_array_mult_passive maps
the passive rotation over a batch of vectors. -/
def quat_vect_array_mult_passive (q : Quat) (l : List Vec3) : List Vec3 :=
  l.map (qv_mult_passive q)

/-- numpy rint: round to the nearest integer, ties to the nearest even
integer (round half to even). -/
def rint (q : ℚ) : ℤ :=
  if q - (⌊q⌋ : ℚ) < 1/2 then ⌊q⌋
  else if (1 : ℚ)/2 < q - (⌊q⌋ : ℚ) then ⌊q⌋ + 1
  else if 2 ∣ ⌊q⌋ then ⌊q⌋ else ⌊q⌋ + 1

/-- Grid indices of a transformed patch position: scale meters to
centimeters and round to nearest (np.rint(pos_traffed * 100)). -/
def rintIdx (v : Vec3) : ℤ × ℤ × ℤ :=
  (rint (v.1 * 100), rint (v.2.1 * 100), rint (v.2.2 * 100))

/-- The cull test of _gen_forces_one_side: all three coordinates in the
half-open interval [0, index_upper_limit). -/
def inCube (lim : ℚ) (v : Vec3) : Bool :=
  decide (0 ≤ v.1 ∧ v.1 < lim ∧ 0 ≤ v.2.1 ∧ v.2.1 < lim ∧ 0 ≤ v.2.2 ∧ v.2.2 < lim)

/-- numpy boolean-mask selection arr[condition] over parallel arrays. -/
def maskFilter : List Bool → List α → List α
  | b :: bs, y :: ys => if b then y :: maskFilter bs ys else maskFilter bs ys
  | _, _ => []

/-- Exact embedding of int(math.pow(n, 1/3)) for natural n: the floor of the
real cube root, computed as the largest k below n + 2 with k ^ 3 ≤ n. -/
def cbrt (n : ℕ) : ℕ :=
  (List.range (n + 2)).foldl (fun acc k => if k ^ 3 ≤ n then k else acc) 0

/-- C-order reshape of a flat list into an N by N by N cube: entry (i,j,k)
is element i*N*N + j*N + k, first index varying slowest. -/
def reshape3 (dflt : α) (N : ℕ) (l : List α) : ℤ → ℤ → ℤ → α :=
  fun i j k => l.getD (i.toNat * N * N + j.toNat * N + k.toNat) dflt

/-- Modelled from the spec: box_dictionary.py (BoxDictionary) is not under
src.  An ordered collection of grid fields keyed by propeller speed, all
sharing one cube size. -/
structure FieldDict (α : Type) where
  cube_size : ℕ
  entries : List (ℚ × (ℤ → ℤ → ℤ → α))
  dflt : α

/-- Modelled from the spec: bound lookup on the key list.  Walks the sorted
keys; clamps below the minimum and above the maximum, collapses to equal
bounds on an exact match, otherwise returns the tightest bracketing pair. -/
def boundsGo (k : ℚ) (rest : List ℚ) (q : ℚ) : ℚ × ℚ :=
  match rest with
  | [] => (k, k)
  | k2 :: tl => if q ≤ k then (k, k) else if q < k2 then (k, k2) else boundsGo k2 tl q

/-- Modelled from the spec: BoxDictionary.get_lower_upper_bounds. -/
def FieldDict.get_lower_upper_bounds (d : FieldDict α) (q : ℚ) : ℚ × ℚ :=
  match d.entries with
  | [] => (q, q)
  | (k, _) :: tl => boundsGo k (tl.map Prod.fst) q

/-- Modelled from the spec: the grid field stored for a given key. -/
def FieldDict.gridAt (d : FieldDict α) (key : ℚ) : ℤ → ℤ → ℤ → α :=
  (d.entries.lookup key).getD (fun _ _ _ => d.dflt)

/-- Linear interpolation on scalars. -/
def lerpQ (t lo hi : ℚ) : ℚ := lo + t * (hi - lo)

/-- Linear interpolation on 3-vectors. -/
def lerpV (t : ℚ) (lo hi : Vec3) : Vec3 := lo + t • (hi - lo)

/-- Modelled from the spec: BoxDictionary.get_interpolated_array.  If the
two bounding keys coincide the lower values are returned unchanged,
otherwise elementwise lower + t * (upper - lower) with
t = (query - lower) / (upper - lower). -/
def interpolatedArray (lerp : ℚ → α → α → α) (q : ℚ) (upperVals lowerVals : List α)
    (ub lb : ℚ) : List α :=
  if lb = ub then lowerVals
  else List.zipWith (fun lo hi => lerp ((q - lb) / (ub - lb)) lo hi) lowerVals upperVals

/-- Dictionary-mode point sampling: bound lookup, indexing both bounding
grids at the same cells, then interpolation (lines 229 to 236 and 243 to
250 of airflow_sampler.py, with BoxDictionary modelled from the spec). -/
def dictSample (lerp : ℚ → α → α → α) (d : FieldDict α) (q : ℚ)
    (indices : List (ℤ × ℤ × ℤ)) : List α :=
  let bds := d.get_lower_upper_bounds q
  let lower := d.gridAt bds.1
  let upper := d.gridAt bds.2
  let lowVals := indices.map (fun i => lower i.1 i.2.1 i.2.2)
  let upVals := indices.map (fun i => upper i.1 i.2.1 i.2.2)
  interpolatedArray lerp q upVals lowVals bds.2 bds.1

/-- Modelled from the spec: mujoco_helper.forces_from_pressures is not under
src.  Per patch, force = -pressure * normal * area. -/
def forces_from_pressures (normals : List Vec3) (ps : List ℚ) (areas : List ℚ) : List Vec3 :=
  List.zipWith (fun n pa => (-(pa.1 * pa.2)) • n) normals (ps.zip areas)

/-- Modelled from the spec: mujoco_helper.forces_from_velocities is not
under src.  The spec only fixes that the term is computed from the normal
component of the local velocity and the patch area; a drag-like
force -(v.n * area) * n is used here. -/
def forces_from_velocities (normals : List Vec3) (vs : List Vec3) (areas : List ℚ) : List Vec3 :=
  List.zipWith (fun n va => (-(dotV va.1 n * va.2)) • n) normals (vs.zip areas)

/-- Modelled from the spec: mujoco_helper.torque_from_force is not under
src.  Per patch, torque = lever x force. -/
def torque_from_force (levers : List Vec3) (fs : List Vec3) : List Vec3 :=
  List.zipWith cross levers fs

/-- Modelled from the spec: the Drone collaborator (pose and rotor-speed
provider); its source is not under src. -/
structure Drone where
  sensor_posimeter : Vec3
  sensor_orimeter : Quat
  prop1_joint_pos : Vec3
  prop_vels : ℚ × ℚ × ℚ × ℚ
deriving DecidableEq, Repr

/-- Modelled from the spec: Drone.get_estimated_prop_vel returns the four
estimated rotor angular velocities. -/
def Drone.get_estimated_prop_vel (d : Drone) : ℚ × ℚ × ℚ × ℚ := d.prop_vels

/-- np.sum(np.abs(prop_velocities)) / 4: the representative propeller speed
(mean of the absolute rotor angular velocities). -/
def meanAbsPropVel (d : Drone) : ℚ :=
  (|d.prop_vels.1| + |d.prop_vels.2.1| + |d.prop_vels.2.2.1| + |d.prop_vels.2.2.2|) / 4

/-- Normals and areas of one surface: a flat surface shares one normal and
one area (normal.ndim == 1 in the source), a curved surface carries one per
patch (normal.ndim > 1). -/
inductive NormalsAreas where
  | shared (n : Vec3) (a : ℚ)
  | perPatch (ns : List Vec3) (areas : List ℚ)
deriving DecidableEq, Repr

/-- One named surface of the payload: parallel batches of world positions,
payload-local positions (lever arms), and normals/areas.  Modelled from the
spec: the Payload collaborator source is not under src. -/
structure SurfData where
  pos : List Vec3
  pos_own : List Vec3
  na : NormalsAreas
deriving DecidableEq, Repr

/-- Modelled from the spec: a box payload exposes six surfaces. -/
structure BoxPayload where
  top : SurfData
  bottom : SurfData
  side_xz_n : SurfData
  side_xz_p : SurfData
  side_yz_n : SurfData
  side_yz_p : SurfData
deriving DecidableEq, Repr

/-- Modelled from the spec: a teardrop payload exposes two surfaces. -/
structure TeardropPayload where
  top : SurfData
  bottom : SurfData
deriving DecidableEq, Repr

/-- The closed set of payload variants the sampler dispatches on; the
other constructor stands for any unrecognized Payload subclass. -/
inductive Payload where
  | box (b : BoxPayload)
  | teardrop (t : TeardropPayload)
  | other (name : String)
deriving DecidableEq, Repr

/-- State of an AirflowSampler (fields of the Python object).  Attributes
that a given configuration leaves unset in Python hold their default value
here and are never consulted on the corresponding code paths. -/
structure AirflowSampler where
  USE_PRESSURE_DICTIONARY : Bool
  USE_VELOCITY_DICTIONARY : Bool
  loaded_pressures : FieldDict ℚ
  loaded_velocities : FieldDict Vec3
  pressure_data : ℤ → ℤ → ℤ → ℚ
  velocity_data : ℤ → ℤ → ℤ → Vec3
  use_velocity : Bool
  drone : Drone
  offset_from_drone_center : Vec3
  _cube_size : ℕ
  _cube_size_meter : ℚ
  _payload_offset_z : ℚ
  _payload_offset_z_meter : ℚ
  index_upper_limit : ℚ
  vertices : List Vec3

/-- set_payload_offset: stores the centimeter value and its meter
counterpart (lines 88 to 90 of airflow_sampler.py). -/
def set_payload_offset (s : AirflowSampler) (offset_in_centimeter : ℚ) : AirflowSampler :=
  { s with _payload_offset_z := offset_in_centimeter
           _payload_offset_z_meter := offset_in_centimeter / 100 }

/-- get_position_orientation: the world origin of the sampling cube is the
drone position plus the rotated rotor offset (lines 104 to 108). -/
def get_position_orientation (s : AirflowSampler) : Vec3 × Quat :=
  (qv_mult s.drone.sensor_orimeter s.offset_from_drone_center + s.drone.sensor_posimeter,
   s.drone.sensor_orimeter)

/-- Lines 160 to 163 of generate_forces_opt: the representative speed is
computed only when the pressure dictionary is in use; otherwise the Python
variable abs_average_velocity keeps its initial None. -/
def abs_average_velocity (s : AirflowSampler) : Option ℚ :=
  if s.USE_PRESSURE_DICTIONARY then some (meanAbsPropVel s.drone) else none

/-- Transform step of _gen_forces_one_side (lines 209 to 211): subtract the
sampler origin, then passively rotate into the rotor-aligned frame. -/
def transformed (s : AirflowSampler) (pos : List Vec3) : List Vec3 :=
  quat_vect_array_mult_passive (get_position_orientation s).2
    (pos.map (fun p => p - (get_position_orientation s).1))

/-- The per-patch cull condition array of lines 216 to 218. -/
def cullCondition (s : AirflowSampler) (pos : List Vec3) : List Bool :=
  (transformed s pos).map (inCube s.index_upper_limit)

/-- Error raised when a None propeller speed reaches the numeric dictionary
lookup (the Python TypeError from comparing None with a float). -/
def noneSpeedMsg : String := "unsupported operand: average propeller speed is None"

/-- The unsupported-payload RuntimeError message (line 204). -/
def unsupportedMsg : String := "payload not implemented!"

/-- The size-mismatch RuntimeError message (lines 44 and 51). -/
def sizeMsg : String := "size of look-up tables must match"

/-- The numpy ValueError raised by reshape on a count mismatch. -/
def reshapeMsg : String := "cannot reshape array"

/-- Explicit bind on Except, written out as the match the Python
control flow performs. -/
def ebind (x : Except String α) (f : α → Except String β) : Except String β :=
  match x with
  | .error e => .error e
  | .ok a => f a

/-- Pressure sampling of _gen_forces_one_side (lines 229 to 239): dictionary
mode interpolates between the two bounding grids, direct mode indexes the
loaded grid.  In dictionary mode with a None speed the numeric lookup
fails (Python TypeError). -/
def pressureVals (s : AirflowSampler) (aav : Option ℚ) (indices : List (ℤ × ℤ × ℤ)) :
    Except String (List ℚ) :=
  if s.USE_PRESSURE_DICTIONARY then
    match aav with
    | none => .error noneSpeedMsg
    | some v => .ok (dictSample lerpQ s.loaded_pressures v indices)
  else
    .ok (indices.map (fun i => s.pressure_data i.1 i.2.1 i.2.2))

/-- Velocity sampling of _gen_forces_one_side (lines 243 to 255): returns
the per-patch local velocities when a velocity source is configured, none
otherwise. -/
def velocityVals (s : AirflowSampler) (aav : Option ℚ) (indices : List (ℤ × ℤ × ℤ)) :
    Except String (Option (List Vec3)) :=
  if s.USE_VELOCITY_DICTIONARY then
    match aav with
    | none => .error noneSpeedMsg
    | some v => .ok (some (dictSample lerpV s.loaded_velocities v indices))
  else if s.use_velocity then
    .ok (some (indices.map (fun i => s.velocity_data i.1 i.2.1 i.2.2)))
  else
    .ok none

/-- _gen_forces_one_side (lines 208 to 267): transform, cull, index, sample,
combine pressure and velocity forces, take torques, and sum. -/
def gen_forces_one_side (s : AirflowSampler) (sd : SurfData) (aav : Option ℚ) :
    Except String (Vec3 × Vec3) :=
  let pos_traffed := transformed s sd.pos
  let condition := List.map (inCube s.index_upper_limit) pos_traffed
  let pos_in_own_frame := maskFilter condition sd.pos_own
  let pt := maskFilter condition pos_traffed
  let normals : List Vec3 :=
    match sd.na with
    | .shared n _ => pt.map (fun _ => n)
    | .perPatch ns _ => maskFilter condition ns
  let areas : List ℚ :=
    match sd.na with
    | .shared _ a => pt.map (fun _ => a)
    | .perPatch _ ars => maskFilter condition ars
  let indices := pt.map rintIdx
  ebind (pressureVals s aav indices) (fun pvals =>
  ebind (velocityVals s aav indices) (fun vvals =>
    let pforces := forces_from_pressures normals pvals areas
    let forces :=
      match vvals with
      | none => pforces
      | some vs => List.zipWith (fun a b => a + b) pforces (forces_from_velocities normals vs areas)
    let torques := torque_from_force pos_in_own_frame forces
    Except.ok (vsum forces, vsum torques)))

/-- Body of generate_forces_opt after the representative speed has been
computed: dispatch on the payload variant and accumulate the per-surface
results; the bottom torque of a box is intentionally omitted (line 174). -/
def generate_forces_with (s : AirflowSampler) (p : Payload) (aav : Option ℚ) :
    Except String (Vec3 × Vec3) :=
  match p with
  | .box b =>
    ebind (gen_forces_one_side s b.top aav) (fun r1 =>
    ebind (gen_forces_one_side s b.bottom aav) (fun r2 =>
    ebind (gen_forces_one_side s b.side_xz_n aav) (fun r3 =>
    ebind (gen_forces_one_side s b.side_xz_p aav) (fun r4 =>
    ebind (gen_forces_one_side s b.side_yz_n aav) (fun r5 =>
    ebind (gen_forces_one_side s b.side_yz_p aav) (fun r6 =>
      Except.ok (r1.1 + r2.1 + r3.1 + r4.1 + r5.1 + r6.1,
                 r1.2 + r3.2 + r4.2 + r5.2 + r6.2)))))))
  | .teardrop t =>
    ebind (gen_forces_one_side s t.top aav) (fun r1 =>
    ebind (gen_forces_one_side s t.bottom aav) (fun r2 =>
      Except.ok (r1.1 + r2.1, r1.2 + r2.2)))
  | .other _ => Except.error unsupportedMsg

/-- generate_forces_opt (lines 156 to 206). -/
def generate_forces_opt (s : AirflowSampler) (p : Payload) : Except String (Vec3 × Vec3) :=
  generate_forces_with s p (abs_average_velocity s)

/-- Stateful rendering of the generate_forces_opt method: the Python body
assigns no attribute of self, so the state component is returned as is. -/
def generate_forces_st (s : AirflowSampler) (p : Payload) :
    AirflowSampler × Except String (Vec3 × Vec3) :=
  (s, generate_forces_opt s p)

/-- The surface restricted to the patches that survive the cull. -/
def cullSurf (s : AirflowSampler) (sd : SurfData) : SurfData :=
  let condition := cullCondition s sd.pos
  { pos := maskFilter condition sd.pos
    pos_own := maskFilter condition sd.pos_own
    na :=
      match sd.na with
      | .shared n a => .shared n a
      | .perPatch ns ars => .perPatch (maskFilter condition ns) (maskFilter condition ars) }

/-- Loading one flat grid file (lines 33 to 36 and the GridField design of
the spec): infer the cube side as int(math.pow(count + 1, 1/3)) and reshape;
numpy reshape raises when the count is not the cube of the inferred side. -/
def loadGridField (dflt : α) (l : List α) : Except String (ℕ × (ℤ → ℤ → ℤ → α)) :=
  let n := cbrt (l.length + 1)
  if l.length = n ^ 3 then Except.ok (n, reshape3 dflt n l) else Except.error reshapeMsg

/-- Modelled from the spec: loading the remaining dictionary entries, each a
flat grid file; every member must agree with the cube size of the first. -/
def loadEntries (dflt : α) (n0 : ℕ) : List (ℚ × List α) → Except String (List (ℚ × (ℤ → ℤ → ℤ → α)))
  | [] => Except.ok []
  | e :: rest =>
    match loadGridField dflt e.2 with
    | .error msg => .error msg
    | .ok (n, g) =>
      if n = n0 then
        match loadEntries dflt n0 rest with
        | .error msg => .error msg
        | .ok gs => .ok ((e.1, g) :: gs)
      else .error sizeMsg

/-- Modelled from the spec: BoxDictionary construction from a folder of
one-or-more keyed grid files; fails if any entry is not a valid grid or any
cube size disagrees with the first. -/
def BoxDictionary.make (dflt : α) (first : ℚ × List α) (rest : List (ℚ × List α)) :
    Except String (FieldDict α) :=
  match loadGridField dflt first.2 with
  | .error msg => .error msg
  | .ok (n0, g0) =>
    match loadEntries dflt n0 rest with
    | .error msg => .error msg
    | .ok gs => .ok ⟨n0, (first.1, g0) :: gs, dflt⟩

/-- The pressure source handed to the constructor: either a flat grid file
or a dictionary folder (one-or-more keyed files). -/
inductive PressureSource where
  | file (data : List ℚ)
  | dict (first : ℚ × List ℚ) (rest : List (ℚ × List ℚ))

/-- The velocity source handed to the constructor: absent, a flat grid file
of (x,y,z) rows, or a dictionary folder. -/
inductive VelocitySource where
  | noneV
  | file (data : List Vec3)
  | dict (first : ℚ × List Vec3) (rest : List (ℚ × List Vec3))

/-- Pressure half of the constructor (lines 26 to 37): dictionary mode takes
the cube size from the dictionary, direct mode infers it from the file. -/
def pressureStage (psrc : PressureSource) :
    Except String (Bool × FieldDict ℚ × (ℤ → ℤ → ℤ → ℚ) × ℕ) :=
  match psrc with
  | .dict f rest =>
    match BoxDictionary.make 0 f rest with
    | .error msg => .error msg
    | .ok d => .ok (true, d, fun _ _ _ => 0, d.cube_size)
  | .file l =>
    match loadGridField 0 l with
    | .error msg => .error msg
    | .ok (n, g) => .ok (false, ⟨0, [], 0⟩, g, n)

/-- Velocity half of the constructor (lines 39 to 54): a velocity dictionary
must match the cube size already fixed by the pressure source; a velocity
file is checked against it via the inferred cube root and then reshaped. -/
def velocityStage (vsrc : VelocitySource) (cs : ℕ) :
    Except String (Bool × FieldDict Vec3 × (ℤ → ℤ → ℤ → Vec3) × Bool) :=
  match vsrc with
  | .noneV => .ok (false, ⟨0, [], 0⟩, fun _ _ _ => 0, false)
  | .dict f rest =>
    match BoxDictionary.make 0 f rest with
    | .error msg => .error msg
    | .ok d =>
      if d.cube_size = cs then .ok (true, d, fun _ _ _ => 0, false)
      else .error sizeMsg
  | .file vl =>
    if cbrt (vl.length + 1) = cs then
      if vl.length = cs ^ 3 then .ok (false, ⟨0, [], 0⟩, reshape3 0 cs vl, true)
      else .error reshapeMsg
    else .error sizeMsg

/-- AirflowSampler.__init__ (lines 14 to 86): load and validate the grid
sources, then fix the rotor-center offset, cube metrics, payload offset
(zero) and index upper limit (cube_size - 0.5) / 100. -/
def AirflowSampler.init (psrc : PressureSource) (owning_drone : Drone) (vsrc : VelocitySource) :
    Except String AirflowSampler :=
  match pressureStage psrc with
  | .error msg => .error msg
  | .ok (up, pd, pg, cs) =>
    match velocityStage vsrc cs with
    | .error msg => .error msg
    | .ok (uv, vd, vg, usev) =>
      let off : Vec3 := (-((cs : ℚ) / 200), -((cs : ℚ) / 200), -((cs : ℚ) / 100))
      let csm : ℚ := (cs : ℚ) / 100
      .ok
        { USE_PRESSURE_DICTIONARY := up
          USE_VELOCITY_DICTIONARY := uv
          loaded_pressures := pd
          loaded_velocities := vd
          pressure_data := pg
          velocity_data := vg
          use_velocity := usev
          drone := owning_drone
          offset_from_drone_center := off
          _cube_size := cs
          _cube_size_meter := csm
          _payload_offset_z := 0
          _payload_offset_z_meter := 0
          index_upper_limit := ((cs : ℚ) - 1/2) / 100
          vertices :=
            [off, off + (csm, 0, 0), off + (0, csm, 0), off + (csm, csm, 0),
             off + (0, 0, csm), off + (csm, 0, csm), off + (0, csm, csm),
             off + (csm, csm, csm)] }

/-- Whether the count of flat grid values is the cube of a positive side
length (a grid of side N holds N ^ 3 samples, N at least 1). -/
def isPerfectCube (c : ℕ) : Prop := ∃ n, 0 < n ∧ n ^ 3 = c

/-- The configuration conditions of the claim on the pressure source: a
direct file holds a perfect-cube count N ^ 3; every entry of a dictionary
holds the same perfect-cube count. -/
def pressGood : PressureSource → ℕ → Prop
  | .file l, N => l.length = N ^ 3
  | .dict f rest, N => f.2.length = N ^ 3 ∧ ∀ e ∈ rest, e.2.length = N ^ 3

/-- The configuration conditions of the claim on the velocity source
relative to the pressure cube size N: a velocity file holds 3 * N ^ 3
numbers as N ^ 3 rows of triples; every dictionary entry likewise. -/
def velGood : VelocitySource → ℕ → Prop
  | .noneV, _ => True
  | .file vl, N => vl.length = N ^ 3
  | .dict f rest, N => f.2.length = N ^ 3 ∧ ∀ e ∈ rest, e.2.length = N ^ 3

/-- The identity quaternion (unit, no rotation). -/
def idQuat : Quat := ⟨1, 0, 0, 0⟩

/-- A drone resting at the origin with identity orientation and stopped
rotors. -/
def D0 : Drone := ⟨(0, 0, 0), idQuat, (0, 0, 0), (0, 0, 0, 0)⟩

/-- A direct-mode sampler over a 21-cube holding the uniform 100 Pa
pressure field, as the constructor lays it out for N = 21. -/
def S0 : AirflowSampler :=
  { USE_PRESSURE_DICTIONARY := false
    USE_VELOCITY_DICTIONARY := false
    loaded_pressures := ⟨0, [], 0⟩
    loaded_velocities := ⟨0, [], 0⟩
    pressure_data := fun _ _ _ => 100
    velocity_data := fun _ _ _ => 0
    use_velocity := false
    drone := D0
    offset_from_drone_center := (-(21/200), -(21/200), -(21/100))
    _cube_size := 21
    _cube_size_meter := 21/100
    _payload_offset_z := 0
    _payload_offset_z_meter := 0
    index_upper_limit := 41/200
    vertices := [] }

/-- A single downward-facing patch of area 0.01 with zero lever arm whose
transformed position lands inside the sampling cube of S0. -/
def sd9 : SurfData := ⟨[(0, 0, -(1/100))], [(0, 0, 0)], .shared (0, 0, 1) (1/100)⟩

/-- A teardrop payload whose top surface is the single patch sd9 and whose
bottom surface carries no patches. -/
def T0 : TeardropPayload := ⟨sd9, ⟨[], [], .shared (0, 0, -1) 1⟩⟩

/-- The teardrop payload T0 as a Payload. -/
def P0 : Payload := .teardrop T0

/-- A surface whose only patch lies far outside the sampling cube of S0. -/
def sdOut : SurfData := ⟨[(1000, 0, 0)], [(0, 0, 0)], .shared (0, 0, 1) (1/100)⟩

/-- A one-entry pressure dictionary over the 21-cube. -/
def dict1Q : FieldDict ℚ := ⟨21, [(10, fun _ _ _ => 100)], 0⟩

/-- A one-entry velocity dictionary over the 21-cube. -/
def dict1V : FieldDict Vec3 := ⟨21, [(10, fun _ _ _ => (0, 0, -1))], 0⟩

/-- A sampler with only a velocity dictionary configured (direct pressure),
on a drone whose rotors all spin at absolute speed 100. -/
def S4 : AirflowSampler :=
  { S0 with USE_VELOCITY_DICTIONARY := true
            loaded_velocities := dict1V
            drone := { D0 with prop_vels := (100, -100, 100, -100) } }

/-- A sampler with a pressure dictionary configured, on a drone whose
rotors all spin at absolute speed 100. -/
def Sp0 : AirflowSampler :=
  { S0 with USE_PRESSURE_DICTIONARY := true
            loaded_pressures := dict1Q
            drone := { D0 with prop_vels := (100, -100, 100, -100) } }

/-- A box payload carrying the single in-range patch sd9 on each of its six
surfaces. -/
def B0 : BoxPayload := ⟨sd9, sd9, sd9, sd9, sd9, sd9⟩

deriving instance DecidableEq for Except

attribute [local semireducible] Rat.add Rat.mul Rat.inv Rat.sub Rat.ofScientific

theorem maskFilter_map (f : α → β) : ∀ (c : List Bool) (l : List α),
    maskFilter c (l.map f) = (maskFilter c l).map f := by
  intro c
  induction c with
  | nil => intro l; cases l <;> rfl
  | cons b bs ih =>
    intro l
    cases l with
    | nil => rfl
    | cons y ys =>
      simp only [List.map_cons, maskFilter]
      by_cases hb : b <;> simp [hb, ih]

theorem maskFilter_nil : ∀ (c : List Bool), maskFilter c ([] : List α) = [] := by
  intro c
  cases c <;> rfl

theorem maskFilter_self_mask : ∀ (c : List Bool) (l : List α),
    maskFilter (maskFilter c c) (maskFilter c l) = maskFilter c l := by
  intro c
  induction c with
  | nil => intro l; rfl
  | cons b bs ih =>
    intro l
    cases l with
    | nil => rw [maskFilter_nil, maskFilter_nil]
    | cons y ys =>
      cases b <;> simp [maskFilter, ih]

theorem maskFilter_all_false {c : List Bool} (h : ∀ b ∈ c, b = false) :
    ∀ (l : List α), maskFilter c l = [] := by
  induction c with
  | nil => intro l; cases l <;> rfl
  | cons b bs ih =>
    intro l
    cases l with
    | nil => rfl
    | cons y ys =>
      have hb : b = false := h b (List.mem_cons_self b bs)
      simp only [maskFilter, hb, if_false, Bool.false_eq_true]
      exact ih (fun x hx => h x (List.mem_cons_of_mem b hx)) ys

theorem transformed_mask (s : AirflowSampler) (c : List Bool) (pos : List Vec3) :
    transformed s (maskFilter c pos) = maskFilter c (transformed s pos) := by
  unfold transformed quat_vect_array_mult_passive
  rw [maskFilter_map, maskFilter_map]

theorem vsum_nil : vsum [] = 0 := rfl

/-- C1: every patch culled by the [0, index_upper_limit) window is excluded
from all further computation: dropping the culled patches of a surface
leaves the per-surface result of generate_forces unchanged, and a surface
all of whose patches are culled yields the zero force and zero torque
whenever the call returns a value. -/
theorem spec_c1 (s : AirflowSampler) (sd : SurfData) (aav : Option ℚ) :
    gen_forces_one_side s (cullSurf s sd) aav = gen_forces_one_side s sd aav ∧
    ((∀ b ∈ cullCondition s sd.pos, b = false) →
      ∀ f t, gen_forces_one_side s sd aav = Except.ok (f, t) → f = 0 ∧ t = 0) := by
  constructor
  · cases sd with
    | mk pos pown na =>
      cases na with
      | shared n a =>
        simp only [gen_forces_one_side, cullSurf, cullCondition, transformed_mask,
          ← maskFilter_map, maskFilter_self_mask]
      | perPatch ns ars =>
        simp only [gen_forces_one_side, cullSurf, cullCondition, transformed_mask,
          ← maskFilter_map, maskFilter_self_mask]
  · intro hall f t h
    have hall2 : ∀ b ∈ List.map (inCube s.index_upper_limit) (transformed s sd.pos),
        b = false := hall
    cases hna : sd.na with
    | shared n a =>
      simp only [gen_forces_one_side, hna, maskFilter_all_false hall2, List.map_nil] at h
      cases hp : pressureVals s aav [] with
      | error e => rw [hp] at h; simp [ebind] at h
      | ok pvals =>
        rw [hp] at h
        cases hv : velocityVals s aav [] with
        | error e => rw [hv] at h; simp [ebind] at h
        | ok vvals =>
          rw [hv] at h
          cases vvals with
          | none =>
            simp [ebind, forces_from_pressures, torque_from_force, vsum_nil] at h
            exact ⟨(congrArg Prod.fst h).symm, (congrArg Prod.snd h).symm⟩
          | some vs =>
            simp [ebind, forces_from_pressures, forces_from_velocities,
              torque_from_force, vsum_nil] at h
            exact ⟨(congrArg Prod.fst h).symm, (congrArg Prod.snd h).symm⟩
    | perPatch ns ars =>
      simp only [gen_forces_one_side, hna, maskFilter_all_false hall2, List.map_nil] at h
      cases hp : pressureVals s aav [] with
      | error e => rw [hp] at h; simp [ebind] at h
      | ok pvals =>
        rw [hp] at h
        cases hv : velocityVals s aav [] with
        | error e => rw [hv] at h; simp [ebind] at h
        | ok vvals =>
          rw [hv] at h
          cases vvals with
          | none =>
            simp [ebind, forces_from_pressures, torque_from_force, vsum_nil] at h
            exact ⟨(congrArg Prod.fst h).symm, (congrArg Prod.snd h).symm⟩
          | some vs =>
            simp [ebind, forces_from_pressures, forces_from_velocities,
              torque_from_force, vsum_nil] at h
            exact ⟨(congrArg Prod.fst h).symm, (congrArg Prod.snd h).symm⟩

/-- Witness for C1 at a concrete sampler and a surface whose only patch
lies outside the sampling cube. -/
theorem spec_c1_witness :
    ((0 : Vec3) = 0 ∧ (0 : Vec3) = 0) ∧
    gen_forces_one_side S0 (cullSurf S0 sdOut) none = gen_forces_one_side S0 sdOut none :=
  ⟨(spec_c1 S0 sdOut none).2 (by decide) 0 0 (by decide), (spec_c1 S0 sdOut none).1⟩

theorem rint_nonneg {q : ℚ} (h : 0 ≤ q) : 0 ≤ rint q := by
  have hf : 0 ≤ ⌊q⌋ := Int.floor_nonneg.mpr h
  unfold rint
  split_ifs <;> omega

theorem rint_lt_of {q : ℚ} {n : ℤ} (h : q < (n : ℚ) - 1/2) : rint q < n := by
  have hfq : (⌊q⌋ : ℚ) ≤ q := Int.floor_le q
  have h1 : ⌊q⌋ < n := Int.floor_lt.mpr (by linarith)
  unfold rint
  split_ifs with h2 h3 h4
  · exact h1
  · have hc : (⌊q⌋ : ℚ) < (n : ℚ) - 1 := by linarith
    have : ⌊q⌋ < n - 1 := by exact_mod_cast hc
    omega
  · exact h1
  · have he : q - (⌊q⌋ : ℚ) = 1/2 := le_antisymm (not_lt.mp h3) (not_lt.mp h2)
    have hc : (⌊q⌋ : ℚ) < (n : ℚ) - 1 := by linarith
    have : ⌊q⌋ < n - 1 := by exact_mod_cast hc
    omega

/-- C2: when the index upper limit carries its constructed value
(cube_size - 0.5) / 100, every position that passes the cull test rounds to
grid indices inside [0, cube_size) on all three axes, so the unchecked grid
reads of the sampling step stay in bounds. -/
theorem spec_c2 (s : AirflowSampler) (v : Vec3)
    (hlim : s.index_upper_limit = ((s._cube_size : ℚ) - 1/2) / 100)
    (hin : inCube s.index_upper_limit v = true) :
    0 ≤ (rintIdx v).1 ∧ (rintIdx v).1 < (s._cube_size : ℤ) ∧
    0 ≤ (rintIdx v).2.1 ∧ (rintIdx v).2.1 < (s._cube_size : ℤ) ∧
    0 ≤ (rintIdx v).2.2 ∧ (rintIdx v).2.2 < (s._cube_size : ℤ) := by
  rw [inCube, decide_eq_true_iff] at hin
  obtain ⟨h1, h2, h3, h4, h5, h6⟩ := hin
  rw [hlim] at h2 h4 h6
  have c1 : v.1 * 100 < ((s._cube_size : ℤ) : ℚ) - 1/2 := by push_cast; linarith
  have c2 : v.2.1 * 100 < ((s._cube_size : ℤ) : ℚ) - 1/2 := by push_cast; linarith
  have c3 : v.2.2 * 100 < ((s._cube_size : ℤ) : ℚ) - 1/2 := by push_cast; linarith
  exact ⟨rint_nonneg (mul_nonneg h1 (by norm_num)), rint_lt_of c1,
    rint_nonneg (mul_nonneg h3 (by norm_num)), rint_lt_of c2,
    rint_nonneg (mul_nonneg h5 (by norm_num)), rint_lt_of c3⟩

/-- Witness for C2 at the concrete sampler S0 (N = 21) and the transformed
position of the patch of sd9, which rounds to indices (10, 10, 20). -/
theorem spec_c2_witness :
    0 ≤ (rintIdx ((21/200 : ℚ), (21/200 : ℚ), (1/5 : ℚ))).1 ∧
    (rintIdx ((21/200 : ℚ), (21/200 : ℚ), (1/5 : ℚ))).1 < (S0._cube_size : ℤ) ∧
    0 ≤ (rintIdx ((21/200 : ℚ), (21/200 : ℚ), (1/5 : ℚ))).2.1 ∧
    (rintIdx ((21/200 : ℚ), (21/200 : ℚ), (1/5 : ℚ))).2.1 < (S0._cube_size : ℤ) ∧
    0 ≤ (rintIdx ((21/200 : ℚ), (21/200 : ℚ), (1/5 : ℚ))).2.2 ∧
    (rintIdx ((21/200 : ℚ), (21/200 : ℚ), (1/5 : ℚ))).2.2 < (S0._cube_size : ℤ) :=
  spec_c2 S0 ((21/200 : ℚ), (21/200 : ℚ), (1/5 : ℚ)) (by decide) (by decide)

/-- C3 counterexample: the claim asserts that a nonzero payload offset
changes the sampled cells and the returned force and torque, but the
optimized path never applies the offset (the translation line is disabled
in the source): at offset 5 centimeters the result is identical to the
result at offset 0. -/
theorem spec_c3_counterexample :
    (set_payload_offset S0 5)._payload_offset_z = 5 ∧ S0._payload_offset_z = 0 ∧
    generate_forces_opt (set_payload_offset S0 5) P0 = generate_forces_opt S0 P0 ∧
    generate_forces_opt S0 P0 = Except.ok ((0, 0, -1), (0, 0, 0)) :=
  ⟨rfl, rfl, by decide, by decide⟩

/-- C3 amended: generate_forces ignores the stored payload vertical offset
entirely; the force and torque are the same for every offset value. -/
theorem spec_c3_amended (s : AirflowSampler) (c : ℚ) (p : Payload) :
    generate_forces_opt (set_payload_offset s c) p = generate_forces_opt s p := rfl

/-- C4 counterexample: with only a velocity dictionary configured the
representative propeller speed is never computed (it stays None) even
though the rotor readings have mean absolute speed 100, and the dictionary
query consequently fails instead of using that mean. -/
theorem spec_c4_counterexample :
    S4.USE_VELOCITY_DICTIONARY = true ∧ meanAbsPropVel S4.drone = 100 ∧
    abs_average_velocity S4 = none ∧
    generate_forces_opt S4 P0 = Except.error noneSpeedMsg :=
  ⟨rfl, by decide, rfl, by decide⟩

/-- C4 amended: the representative propeller speed (mean of the four
absolute rotor angular velocities) is computed only when the pressure
dictionary is configured; every dictionary query of a generate_forces call
receives that single shared value, which is None whenever the pressure
dictionary is not in use. -/
theorem spec_c4 (s : AirflowSampler) :
    (s.USE_PRESSURE_DICTIONARY = true →
      abs_average_velocity s = some (meanAbsPropVel s.drone)) ∧
    (s.USE_PRESSURE_DICTIONARY = false → abs_average_velocity s = none) ∧
    (∀ p, generate_forces_opt s p = generate_forces_with s p (abs_average_velocity s)) := by
  refine ⟨fun h => ?_, fun h => ?_, fun p => rfl⟩
  · simp [abs_average_velocity, h]
  · simp [abs_average_velocity, h]

/-- Witness for C4 at a pressure-dictionary sampler and at the
velocity-dictionary-only sampler. -/
theorem spec_c4_witness :
    abs_average_velocity Sp0 = some (meanAbsPropVel Sp0.drone) ∧
    abs_average_velocity S4 = none :=
  ⟨(spec_c4 Sp0).1 rfl, (spec_c4 S4).2.1 rfl⟩

theorem ebind_error {x : Except String α} {f : α → Except String β} {e : String}
    (h : ebind x f = Except.error e) :
    x = Except.error e ∨ ∃ a, x = Except.ok a ∧ f a = Except.error e := by
  cases x with
  | error e2 =>
    left
    simp [ebind] at h
    rw [h]
  | ok a =>
    right
    exact ⟨a, rfl, h⟩

theorem pressureVals_error {s : AirflowSampler} {aav : Option ℚ}
    {idx : List (ℤ × ℤ × ℤ)} {e : String}
    (h : pressureVals s aav idx = Except.error e) : e = noneSpeedMsg := by
  unfold pressureVals at h
  by_cases hup : s.USE_PRESSURE_DICTIONARY = true
  · rw [if_pos hup] at h
    cases aav with
    | none => injection h with h2; exact h2.symm
    | some v => exact absurd h (by simp)
  · rw [if_neg hup] at h
    exact absurd h (by simp)

theorem velocityVals_error {s : AirflowSampler} {aav : Option ℚ}
    {idx : List (ℤ × ℤ × ℤ)} {e : String}
    (h : velocityVals s aav idx = Except.error e) : e = noneSpeedMsg := by
  unfold velocityVals at h
  by_cases huv : s.USE_VELOCITY_DICTIONARY = true
  · rw [if_pos huv] at h
    cases aav with
    | none => injection h with h2; exact h2.symm
    | some v => exact absurd h (by simp)
  · rw [if_neg huv] at h
    by_cases hus : s.use_velocity = true
    · rw [if_pos hus] at h
      exact absurd h (by simp)
    · rw [if_neg hus] at h
      exact absurd h (by simp)

theorem gen_forces_one_side_error {s : AirflowSampler} {sd : SurfData}
    {aav : Option ℚ} {e : String}
    (h : gen_forces_one_side s sd aav = Except.error e) : e = noneSpeedMsg := by
  simp only [gen_forces_one_side] at h
  rcases ebind_error h with h1 | ⟨pv, _, h2⟩
  · exact pressureVals_error h1
  · rcases ebind_error h2 with h3 | ⟨vv, _, h4⟩
    · exact velocityVals_error h3
    · simp at h4

theorem generate_box_error_msg {s : AirflowSampler} {aav : Option ℚ} {e : String}
    {b : BoxPayload}
    (h : generate_forces_with s (Payload.box b) aav = Except.error e) : e = noneSpeedMsg := by
  simp only [generate_forces_with] at h
  rcases ebind_error h with h1 | ⟨r1, _, h⟩
  · exact gen_forces_one_side_error h1
  rcases ebind_error h with h1 | ⟨r2, _, h⟩
  · exact gen_forces_one_side_error h1
  rcases ebind_error h with h1 | ⟨r3, _, h⟩
  · exact gen_forces_one_side_error h1
  rcases ebind_error h with h1 | ⟨r4, _, h⟩
  · exact gen_forces_one_side_error h1
  rcases ebind_error h with h1 | ⟨r5, _, h⟩
  · exact gen_forces_one_side_error h1
  rcases ebind_error h with h1 | ⟨r6, _, h⟩
  · exact gen_forces_one_side_error h1
  simp at h

theorem generate_teardrop_error_msg {s : AirflowSampler} {aav : Option ℚ} {e : String}
    {t : TeardropPayload}
    (h : generate_forces_with s (Payload.teardrop t) aav = Except.error e) :
    e = noneSpeedMsg := by
  simp only [generate_forces_with] at h
  rcases ebind_error h with h1 | ⟨r1, _, h⟩
  · exact gen_forces_one_side_error h1
  rcases ebind_error h with h1 | ⟨r2, _, h⟩
  · exact gen_forces_one_side_error h1
  simp at h

/-- C5: generate_forces fails with the unsupported-payload error exactly
when the payload is outside the recognized closed set of geometry variants
(box, teardrop); the dispatch raises before any per-surface work, and the
call leaves the sampler state untouched, so no halfway accumulated
totals are observable. -/
theorem spec_c5 (s : AirflowSampler) (p : Payload) :
    (generate_forces_opt s p = Except.error unsupportedMsg ↔ ∃ nm, p = Payload.other nm) ∧
    (generate_forces_st s p).1 = s := by
  refine ⟨?_, rfl⟩
  cases p with
  | box b =>
    constructor
    · intro h
      have hmsg := generate_box_error_msg h
      exact absurd hmsg (by simp [unsupportedMsg, noneSpeedMsg])
    · rintro ⟨nm, hnm⟩
      cases hnm
  | teardrop t =>
    constructor
    · intro h
      have hmsg := generate_teardrop_error_msg h
      exact absurd hmsg (by simp [unsupportedMsg, noneSpeedMsg])
    · rintro ⟨nm, hnm⟩
      cases hnm
  | other nm =>
    exact ⟨fun _ => ⟨nm, rfl⟩, fun _ => rfl⟩

theorem ebind_ok {x : Except String α} {f : α → Except String β} {v : β}
    (h : ebind x f = Except.ok v) : ∃ a, x = Except.ok a ∧ f a = Except.ok v := by
  cases x with
  | error e => simp [ebind] at h
  | ok a => exact ⟨a, rfl, h⟩

/-- C6: a successful generate_forces call on a box payload accumulates the
force of exactly its six surfaces and the torque of exactly five of them,
omitting the bottom torque; on a teardrop payload it accumulates force and
torque of exactly its two surfaces. -/
theorem spec_c6 :
    (∀ (s : AirflowSampler) (b : BoxPayload) (f t : Vec3),
      generate_forces_opt s (Payload.box b) = Except.ok (f, t) →
      ∃ r1 r2 r3 r4 r5 r6 : Vec3 × Vec3,
        gen_forces_one_side s b.top (abs_average_velocity s) = Except.ok r1 ∧
        gen_forces_one_side s b.bottom (abs_average_velocity s) = Except.ok r2 ∧
        gen_forces_one_side s b.side_xz_n (abs_average_velocity s) = Except.ok r3 ∧
        gen_forces_one_side s b.side_xz_p (abs_average_velocity s) = Except.ok r4 ∧
        gen_forces_one_side s b.side_yz_n (abs_average_velocity s) = Except.ok r5 ∧
        gen_forces_one_side s b.side_yz_p (abs_average_velocity s) = Except.ok r6 ∧
        f = r1.1 + r2.1 + r3.1 + r4.1 + r5.1 + r6.1 ∧
        t = r1.2 + r3.2 + r4.2 + r5.2 + r6.2) ∧
    (∀ (s : AirflowSampler) (td : TeardropPayload) (f t : Vec3),
      generate_forces_opt s (Payload.teardrop td) = Except.ok (f, t) →
      ∃ r1 r2 : Vec3 × Vec3,
        gen_forces_one_side s td.top (abs_average_velocity s) = Except.ok r1 ∧
        gen_forces_one_side s td.bottom (abs_average_velocity s) = Except.ok r2 ∧
        f = r1.1 + r2.1 ∧ t = r1.2 + r2.2) := by
  constructor
  · intro s b f t h
    simp only [generate_forces_opt, generate_forces_with] at h
    rcases ebind_ok h with ⟨r1, h1, h⟩
    rcases ebind_ok h with ⟨r2, h2, h⟩
    rcases ebind_ok h with ⟨r3, h3, h⟩
    rcases ebind_ok h with ⟨r4, h4, h⟩
    rcases ebind_ok h with ⟨r5, h5, h⟩
    rcases ebind_ok h with ⟨r6, h6, h⟩
    injection h with hpair
    exact ⟨r1, r2, r3, r4, r5, r6, h1, h2, h3, h4, h5, h6,
      (congrArg Prod.fst hpair).symm, (congrArg Prod.snd hpair).symm⟩
  · intro s td f t h
    simp only [generate_forces_opt, generate_forces_with] at h
    rcases ebind_ok h with ⟨r1, h1, h⟩
    rcases ebind_ok h with ⟨r2, h2, h⟩
    injection h with hpair
    exact ⟨r1, r2, h1, h2, (congrArg Prod.fst hpair).symm, (congrArg Prod.snd hpair).symm⟩

/-- Witness for C6 at the concrete direct-mode sampler S0 with the box
payload B0 (six single-patch surfaces) and the teardrop payload T0. -/
theorem spec_c6_witness :
    (∃ r1 r2 r3 r4 r5 r6 : Vec3 × Vec3,
      gen_forces_one_side S0 B0.top (abs_average_velocity S0) = Except.ok r1 ∧
      gen_forces_one_side S0 B0.bottom (abs_average_velocity S0) = Except.ok r2 ∧
      gen_forces_one_side S0 B0.side_xz_n (abs_average_velocity S0) = Except.ok r3 ∧
      gen_forces_one_side S0 B0.side_xz_p (abs_average_velocity S0) = Except.ok r4 ∧
      gen_forces_one_side S0 B0.side_yz_n (abs_average_velocity S0) = Except.ok r5 ∧
      gen_forces_one_side S0 B0.side_yz_p (abs_average_velocity S0) = Except.ok r6 ∧
      ((0 : ℚ), (0 : ℚ), (-6 : ℚ)) = r1.1 + r2.1 + r3.1 + r4.1 + r5.1 + r6.1 ∧
      (0 : Vec3) = r1.2 + r3.2 + r4.2 + r5.2 + r6.2) ∧
    (∃ r1 r2 : Vec3 × Vec3,
      gen_forces_one_side S0 T0.top (abs_average_velocity S0) = Except.ok r1 ∧
      gen_forces_one_side S0 T0.bottom (abs_average_velocity S0) = Except.ok r2 ∧
      ((0 : ℚ), (0 : ℚ), (-1 : ℚ)) = r1.1 + r2.1 ∧ (0 : Vec3) = r1.2 + r2.2) :=
  ⟨spec_c6.1 S0 B0 ((0 : ℚ), (0 : ℚ), (-6 : ℚ)) 0 (by decide),
   spec_c6.2 S0 T0 ((0 : ℚ), (0 : ℚ), (-1 : ℚ)) 0 (by decide)⟩

/-- C8: generate_forces leaves the sampler state unchanged, and
set_payload_offset changes exactly the two payload-offset fields, storing
the centimeter value and its meter counterpart. -/
theorem spec_c8 (s : AirflowSampler) (c : ℚ) (p : Payload) :
    (set_payload_offset s c)._payload_offset_z = c ∧
    (set_payload_offset s c)._payload_offset_z_meter = c / 100 ∧
    (set_payload_offset s c).USE_PRESSURE_DICTIONARY = s.USE_PRESSURE_DICTIONARY ∧
    (set_payload_offset s c).USE_VELOCITY_DICTIONARY = s.USE_VELOCITY_DICTIONARY ∧
    (set_payload_offset s c).loaded_pressures = s.loaded_pressures ∧
    (set_payload_offset s c).loaded_velocities = s.loaded_velocities ∧
    (set_payload_offset s c).pressure_data = s.pressure_data ∧
    (set_payload_offset s c).velocity_data = s.velocity_data ∧
    (set_payload_offset s c).use_velocity = s.use_velocity ∧
    (set_payload_offset s c).drone = s.drone ∧
    (set_payload_offset s c).offset_from_drone_center = s.offset_from_drone_center ∧
    (set_payload_offset s c)._cube_size = s._cube_size ∧
    (set_payload_offset s c)._cube_size_meter = s._cube_size_meter ∧
    (set_payload_offset s c).index_upper_limit = s.index_upper_limit ∧
    (set_payload_offset s c).vertices = s.vertices ∧
    (generate_forces_st s p).1 = s :=
  ⟨rfl, rfl, rfl, rfl, rfl, rfl, rfl, rfl, rfl, rfl, rfl, rfl, rfl, rfl, rfl, rfl⟩

/-- C9: the pressure-derived force of each patch is
-pressure * normal * area, and the concrete N = 21 scenario of the spec (a
single downward-facing patch of area 0.01 with zero lever arm over the
uniform 100 Pa field, no velocity source) yields exactly force (0, 0, -1)
and torque (0, 0, 0). -/
theorem spec_c9 :
    (∀ (n : Vec3) (ns : List Vec3) (p : ℚ) (ps : List ℚ) (a : ℚ) (ars : List ℚ),
      forces_from_pressures (n :: ns) (p :: ps) (a :: ars) =
        ((-(p * a)) • n) :: forces_from_pressures ns ps ars) ∧
    generate_forces_opt S0 P0 = Except.ok ((0, 0, -1), (0, 0, 0)) :=
  ⟨fun _ _ _ _ _ _ => rfl, by decide⟩

/-- C10: generate_forces is deterministic and read-only: samplers whose
fields (loaded grids, configuration flags, drone readings, offsets) are
equal, applied to equal payload patch batches, return equal results, and
the call leaves both sampler states unchanged. -/
theorem spec_c10 (s1 s2 : AirflowSampler) (p1 p2 : Payload)
    (hfields :
      s1.USE_PRESSURE_DICTIONARY = s2.USE_PRESSURE_DICTIONARY ∧
      s1.USE_VELOCITY_DICTIONARY = s2.USE_VELOCITY_DICTIONARY ∧
      s1.loaded_pressures = s2.loaded_pressures ∧
      s1.loaded_velocities = s2.loaded_velocities ∧
      s1.pressure_data = s2.pressure_data ∧
      s1.velocity_data = s2.velocity_data ∧
      s1.use_velocity = s2.use_velocity ∧
      s1.drone = s2.drone ∧
      s1.offset_from_drone_center = s2.offset_from_drone_center ∧
      s1._cube_size = s2._cube_size ∧
      s1._cube_size_meter = s2._cube_size_meter ∧
      s1._payload_offset_z = s2._payload_offset_z ∧
      s1._payload_offset_z_meter = s2._payload_offset_z_meter ∧
      s1.index_upper_limit = s2.index_upper_limit ∧
      s1.vertices = s2.vertices)
    (hp : p1 = p2) :
    generate_forces_opt s1 p1 = generate_forces_opt s2 p2 ∧
    (generate_forces_st s1 p1).1 = s1 ∧ (generate_forces_st s2 p2).1 = s2 := by
  have hs : s1 = s2 := by
    cases s1
    cases s2
    simp only [AirflowSampler.mk.injEq]
    exact hfields
  subst hs
  subst hp
  exact ⟨rfl, rfl, rfl⟩

/-- Witness for C10 at the concrete sampler S0 and teardrop payload T0. -/
theorem spec_c10_witness :
    generate_forces_opt S0 (Payload.teardrop T0) = generate_forces_opt S0 (Payload.teardrop T0) ∧
    (generate_forces_st S0 (Payload.teardrop T0)).1 = S0 ∧
    (generate_forces_st S0 (Payload.teardrop T0)).1 = S0 :=
  spec_c10 S0 S0 (Payload.teardrop T0) (Payload.teardrop T0)
    ⟨rfl, rfl, rfl, rfl, rfl, rfl, rfl, rfl, rfl, rfl, rfl, rfl, rfl, rfl, rfl⟩ rfl

theorem cbrt_fold_inv (n : ℕ) : ∀ m : ℕ,
    ((List.range m).foldl (fun acc k => if k ^ 3 ≤ n then k else acc) 0) ^ 3 ≤ n ∧
    ∀ k, k < m → k ^ 3 ≤ n →
      k ≤ (List.range m).foldl (fun acc k => if k ^ 3 ≤ n then k else acc) 0 := by
  intro m
  induction m with
  | zero => simp
  | succ m ih =>
    rw [List.range_succ, List.foldl_append, List.foldl_cons, List.foldl_nil]
    by_cases h : m ^ 3 ≤ n
    · rw [if_pos h]
      refine ⟨h, fun k hk hk3 => ?_⟩
      omega
    · rw [if_neg h]
      refine ⟨ih.1, fun k hk hk3 => ?_⟩
      have hne : k ≠ m := fun he => h (he ▸ hk3)
      exact ih.2 k (by omega) hk3

theorem cbrt_cube_le (n : ℕ) : (cbrt n) ^ 3 ≤ n := (cbrt_fold_inv n (n + 2)).1

theorem le_cbrt {k n : ℕ} (h : k ^ 3 ≤ n) : k ≤ cbrt n := by
  have hk : k ≤ k ^ 3 := Nat.le_self_pow (by norm_num) k
  exact (cbrt_fold_inv n (n + 2)).2 k (by omega) h

theorem lt_cbrt_succ_cube (n : ℕ) : n < (cbrt n + 1) ^ 3 := by
  by_contra hc
  push_neg at hc
  have := le_cbrt hc
  omega

theorem cbrt_eq_of {n m : ℕ} (h1 : m ^ 3 ≤ n) (h2 : n < (m + 1) ^ 3) : cbrt n = m := by
  have hle : m ≤ cbrt n := le_cbrt h1
  have hge : cbrt n ≤ m := by
    by_contra hc
    push_neg at hc
    have h3 : (m + 1) ^ 3 ≤ (cbrt n) ^ 3 := Nat.pow_le_pow_left (by omega) 3
    have h4 := cbrt_cube_le n
    omega
  omega

theorem cbrt_cube_succ {n : ℕ} (h : 0 < n) : cbrt (n ^ 3 + 1) = n :=
  cbrt_eq_of (Nat.le_succ _) (by nlinarith)

theorem cube_check_iff (c : ℕ) : c = (cbrt (c + 1)) ^ 3 ↔ ∃ n, 0 < n ∧ n ^ 3 = c := by
  constructor
  · intro h
    have h1 : 1 ≤ cbrt (c + 1) := le_cbrt (by norm_num)
    exact ⟨cbrt (c + 1), by omega, h.symm⟩
  · rintro ⟨n, hn, rfl⟩
    rw [cbrt_cube_succ hn]

theorem loadGridField_ok_iff (dflt : α) (l : List α) :
    (∃ r, loadGridField dflt l = Except.ok r) ↔ ∃ n, 0 < n ∧ n ^ 3 = l.length := by
  unfold loadGridField
  by_cases h : l.length = (cbrt (l.length + 1)) ^ 3
  · rw [if_pos h]
    exact iff_of_true ⟨_, rfl⟩ ((cube_check_iff l.length).mp h)
  · rw [if_neg h]
    refine iff_of_false (by simp) ?_
    rintro ⟨n, hn, hl⟩
    exact h (by rw [← hl, cbrt_cube_succ hn])

theorem loadGridField_ok_parts {dflt : α} {l : List α} {n : ℕ} {g : ℤ → ℤ → ℤ → α}
    (h : loadGridField dflt l = Except.ok (n, g)) : 0 < n ∧ l.length = n ^ 3 := by
  unfold loadGridField at h
  by_cases hc : l.length = (cbrt (l.length + 1)) ^ 3
  · rw [if_pos hc] at h
    injection h with h2
    have hn : cbrt (l.length + 1) = n := congrArg Prod.fst h2
    have h1 : 1 ≤ cbrt (l.length + 1) := le_cbrt (by norm_num)
    refine ⟨by omega, ?_⟩
    rw [hn] at hc
    exact hc
  · rw [if_neg hc] at h
    exact absurd h (by simp)

theorem loadGridField_ok_of (dflt : α) (l : List α) (n : ℕ) (hn : 0 < n)
    (hl : l.length = n ^ 3) :
    loadGridField dflt l = Except.ok (n, reshape3 dflt n l) := by
  unfold loadGridField
  have hc : cbrt (l.length + 1) = n := by rw [hl]; exact cbrt_cube_succ hn
  simp only [hc]
  rw [if_pos hl]

theorem loadEntries_ok_iff (dflt : α) (n0 : ℕ) (rest : List (ℚ × List α)) :
    (∃ gs, loadEntries dflt n0 rest = Except.ok gs) ↔
    ∀ e ∈ rest, 0 < n0 ∧ e.2.length = n0 ^ 3 := by
  induction rest with
  | nil => exact iff_of_true ⟨[], rfl⟩ (by simp)
  | cons e tl ih =>
    constructor
    · rintro ⟨gs, hgs⟩
      unfold loadEntries at hgs
      split at hgs
      · exact absurd hgs (by simp)
      · rename_i n g hlg
        split at hgs
        · rename_i hne
          split at hgs
          · exact absurd hgs (by simp)
          · rename_i gs2 hle
            have hparts := loadGridField_ok_parts hlg
            intro x hx
            rcases List.mem_cons.mp hx with rfl | hmem
            · exact ⟨hne ▸ hparts.1, hne ▸ hparts.2⟩
            · exact (ih.mp ⟨gs2, hle⟩) x hmem
        · exact absurd hgs (by simp)
    · intro hall
      have he := hall e (List.mem_cons_self e tl)
      have hlg := loadGridField_ok_of dflt e.2 n0 he.1 he.2
      obtain ⟨gs2, hgs2⟩ := ih.mpr (fun x hx => hall x (List.mem_cons_of_mem e hx))
      refine ⟨(e.1, reshape3 dflt n0 e.2) :: gs2, ?_⟩
      simp [loadEntries, hlg, hgs2]

theorem make_ok_parts {dflt : α} {first : ℚ × List α} {rest : List (ℚ × List α)}
    {d : FieldDict α}
    (h : BoxDictionary.make dflt first rest = Except.ok d) :
    0 < d.cube_size ∧ first.2.length = d.cube_size ^ 3 ∧
    ∀ e ∈ rest, e.2.length = d.cube_size ^ 3 := by
  unfold BoxDictionary.make at h
  split at h
  · exact absurd h (by simp)
  · rename_i n0 g0 hlg
    split at h
    · exact absurd h (by simp)
    · rename_i gs hle
      injection h with h2
      subst h2
      have hparts := loadGridField_ok_parts hlg
      refine ⟨hparts.1, hparts.2, fun e he => ?_⟩
      exact ((loadEntries_ok_iff dflt n0 rest).mp ⟨gs, hle⟩ e he).2

theorem make_ok_of (dflt : α) (first : ℚ × List α) (rest : List (ℚ × List α)) (n : ℕ)
    (hn : 0 < n) (h1 : first.2.length = n ^ 3) (h2 : ∀ e ∈ rest, e.2.length = n ^ 3) :
    ∃ d, BoxDictionary.make dflt first rest = Except.ok d ∧ d.cube_size = n := by
  obtain ⟨gs, hgs⟩ := (loadEntries_ok_iff dflt n rest).mpr (fun e he => ⟨hn, h2 e he⟩)
  refine ⟨⟨n, (first.1, reshape3 dflt n first.2) :: gs, dflt⟩, ?_, rfl⟩
  simp [BoxDictionary.make, loadGridField_ok_of dflt first.2 n hn h1, hgs]

theorem exists_ok_iff_isOk {e : Except String α} : (∃ x, e = Except.ok x) ↔ e.isOk = true := by
  cases e <;> simp [Except.isOk, Except.toBool]

theorem pressureStage_ok_parts {psrc : PressureSource} {up : Bool} {pd : FieldDict ℚ}
    {pg : ℤ → ℤ → ℤ → ℚ} {cs : ℕ}
    (h : pressureStage psrc = Except.ok (up, pd, pg, cs)) : 0 < cs ∧ pressGood psrc cs := by
  cases psrc with
  | file l =>
    simp only [pressureStage] at h
    split at h
    · exact absurd h (by simp)
    · rename_i n g hlg
      injection h with h2
      have hparts := loadGridField_ok_parts hlg
      have hcs : n = cs := congrArg (fun r => r.2.2.2) h2
      subst hcs
      exact ⟨hparts.1, hparts.2⟩
  | dict f rest =>
    simp only [pressureStage] at h
    split at h
    · exact absurd h (by simp)
    · rename_i d hmk
      injection h with h2
      have hparts := make_ok_parts hmk
      have hcs : d.cube_size = cs := congrArg (fun r => r.2.2.2) h2
      subst hcs
      exact ⟨hparts.1, hparts.2.1, hparts.2.2⟩

theorem pressureStage_ok_of (psrc : PressureSource) (N : ℕ) (hN : 0 < N)
    (hp : pressGood psrc N) :
    ∃ up pd pg, pressureStage psrc = Except.ok (up, pd, pg, N) := by
  cases psrc with
  | file l =>
    refine ⟨false, ⟨0, [], 0⟩, reshape3 0 N l, ?_⟩
    simp [pressureStage, loadGridField_ok_of 0 l N hN hp]
  | dict f rest =>
    obtain ⟨d, hd, hcube⟩ := make_ok_of 0 f rest N hN hp.1 hp.2
    refine ⟨true, d, fun _ _ _ => 0, ?_⟩
    simp [pressureStage, hd, hcube]

theorem velocityStage_ok_iff (vsrc : VelocitySource) (cs : ℕ) (hcs : 0 < cs) :
    (∃ r, velocityStage vsrc cs = Except.ok r) ↔ velGood vsrc cs := by
  cases vsrc with
  | noneV => exact iff_of_true ⟨_, rfl⟩ trivial
  | file vl =>
    constructor
    · rintro ⟨r, hr⟩
      simp only [velocityStage] at hr
      split at hr
      · split at hr
        · rename_i h1 h2
          exact h2
        · exact absurd hr (by simp)
      · exact absurd hr (by simp)
    · intro h2
      have h3 : vl.length = cs ^ 3 := h2
      have h1 : cbrt (vl.length + 1) = cs := by rw [h3]; exact cbrt_cube_succ hcs
      rw [exists_ok_iff_isOk]
      simp [velocityStage, h1, h3, cbrt_cube_succ hcs, Except.isOk, Except.toBool]
  | dict f rest =>
    constructor
    · rintro ⟨r, hr⟩
      simp only [velocityStage] at hr
      split at hr
      · exact absurd hr (by simp)
      · rename_i d hmk
        split at hr
        · rename_i hcube
          have hparts := make_ok_parts hmk
          rw [hcube] at hparts
          exact ⟨hparts.2.1, hparts.2.2⟩
        · exact absurd hr (by simp)
    · rintro ⟨h1, h2⟩
      obtain ⟨d, hd, hcube⟩ := make_ok_of 0 f rest cs hcs h1 h2
      rw [exists_ok_iff_isOk]
      simp [velocityStage, hd, hcube, Except.isOk, Except.toBool]

/-- C7: construction of the sampler succeeds exactly when the pressure
source consists of perfect-cube grids of one side length N (every
dictionary entry included) and the velocity source, when present, consists
of grids of the same N (a velocity file carries 3 * N ^ 3 numbers as N ^ 3
rows of triples); in every other case the constructor surfaces an error
immediately.  BoxDictionary loading is modelled from the spec, its source
not being under src. -/
theorem spec_c7 (psrc : PressureSource) (dr : Drone) (vsrc : VelocitySource) :
    (∃ s, AirflowSampler.init psrc dr vsrc = Except.ok s) ↔
    ∃ N, 0 < N ∧ pressGood psrc N ∧ velGood vsrc N := by
  constructor
  · rintro ⟨s, hs⟩
    unfold AirflowSampler.init at hs
    split at hs
    · exact absurd hs (by simp)
    · rename_i up pd pg cs hps
      split at hs
      · exact absurd hs (by simp)
      · rename_i uv vd vg usev hvs
        have hparts := pressureStage_ok_parts hps
        exact ⟨cs, hparts.1, hparts.2,
          (velocityStage_ok_iff vsrc cs hparts.1).mp ⟨_, hvs⟩⟩
  · rintro ⟨N, hN, hp, hv⟩
    obtain ⟨up, pd, pg, hps⟩ := pressureStage_ok_of psrc N hN hp
    obtain ⟨⟨uv, vd, vg, usev⟩, hvs⟩ := (velocityStage_ok_iff vsrc N hN).mpr hv
    rw [exists_ok_iff_isOk]
    simp [AirflowSampler.init, hps, hvs, Except.isOk, Except.toBool]
